import Mathlib

/-!
Shallow embedding of the eye-contact gaze tracker (script.js).

The repository ships two variants of the same script concatenated in
`script.js`; where they differ (threshold constants, the minimum-mass guard
of the gaze estimator) both variants are embedded.  Machine pixels are
natural numbers, image moments are computed over an explicit list of
foreground pixel coordinates (OpenCV `cv.moments(img, true)` on a binary
image: `m00` = foreground count, `m10` = sum of x coordinates), and the
floating-point ratio arithmetic of the source is embedded over `ℚ`.
-/

namespace EyeContact

/-- Variant 1 constant `BLINK_RATIO_THRESHOLD = 0.25` (script.js line 22). -/
def BLINK_RATIO_THRESHOLD : ℚ := 25/100

/-- Variant 1 constant `GAZE_DEBOUNCE_MS = 150` (script.js line 23). -/
def GAZE_DEBOUNCE_MS : ℕ := 150

/-- Variant 1 constant `GAZE_THRESHOLD_LOW = 0.40` (script.js line 24). -/
def GAZE_THRESHOLD_LOW : ℚ := 40/100

/-- Variant 1 constant `GAZE_THRESHOLD_HIGH = 0.60` (script.js line 25). -/
def GAZE_THRESHOLD_HIGH : ℚ := 60/100

/-- Variant 2 constant `GAZE_THRESHOLD_LOW = 0.35` (second script half). -/
def GAZE_THRESHOLD_LOW2 : ℚ := 35/100

/-- Variant 2 constant `GAZE_THRESHOLD_HIGH = 0.65` (second script half). -/
def GAZE_THRESHOLD_HIGH2 : ℚ := 65/100

/-- A binarized eye-region image: the width in columns (`eyeROI.cols`) and
the list of foreground pixel coordinates `(x, y)` after thresholding (and,
for variant 1, morphology).  Moments with `binaryImage = true` only depend
on this data. -/
structure BinImg where
  cols : ℕ
  pixels : List (ℕ × ℕ)
deriving DecidableEq, Repr

/-- Zeroth image moment of a binary image: the number of foreground pixels
(`cv.moments(proc, true).m00`). -/
def m00 (img : BinImg) : ℕ := img.pixels.length

/-- First horizontal image moment of a binary image: the sum of foreground
x coordinates (`cv.moments(proc, true).m10`). -/
def m10 (img : BinImg) : ℕ := (img.pixels.map (fun p => p.1)).sum

/-- Normalized horizontal centroid `ratio = (m10 / m00) / eyeROI.cols`
(script.js lines 201-203). -/
def gazeRatioOf (img : BinImg) : ℚ := ((m10 img : ℚ) / (m00 img)) / (img.cols)

/-- Variant 1 `detectGaze`, from the moments stage on (script.js lines
197-230): direction starts at CENTER, and only when `m00 > 100` is the
centroid ratio computed and classified against the 0.40 / 0.60 bands. -/
def detectGaze (img : BinImg) : String :=
  if 100 < m00 img then
    if gazeRatioOf img < GAZE_THRESHOLD_LOW then "LEFT"
    else if GAZE_THRESHOLD_HIGH < gazeRatioOf img then "RIGHT"
    else "CENTER"
  else "CENTER"

/-- Variant 2 inline gaze classification (second script half, lines
536-553 of the concatenation): the mass guard is `m00 > 0`, the bands are
0.35 / 0.65. -/
def detectGazeV2 (img : BinImg) : String :=
  if 0 < m00 img then
    if gazeRatioOf img < GAZE_THRESHOLD_LOW2 then "LEFT"
    else if GAZE_THRESHOLD_HIGH2 < gazeRatioOf img then "RIGHT"
    else "CENTER"
  else "CENTER"

/-- Horizontal mirror of a binary image: each foreground pixel `(x, y)`
moves to `(cols - 1 - x, y)`.  Histogram equalization, fixed thresholding
and the elliptic (symmetric) morphology all commute with this reflection,
so mirroring the raw eye region mirrors the binarized foreground. -/
def mirrorImg (img : BinImg) : BinImg :=
  ⟨img.cols, img.pixels.map (fun p => (img.cols - 1 - p.1, p.2))⟩

/-- The 101-pixel column-3 test image (10 columns wide): centroid ratio
3/10. -/
def imgA : BinImg := ⟨10, (List.range 101).map (fun i => (3, i))⟩

/-- The 50-pixel column-1 test image (10 columns wide): centroid ratio
1/10, zeroth moment 50 < 100. -/
def imgSmall : BinImg := ⟨10, (List.range 50).map (fun i => (1, i))⟩

/-- The empty binarized image over 10 columns. -/
def imgEmpty : BinImg := ⟨10, []⟩

/-- An axis-aligned detector rectangle in pixel coordinates. -/
structure Rect where
  x : ℕ
  y : ℕ
  width : ℕ
  height : ℕ
deriving DecidableEq, Repr

/-- The eye aspect ratio `height / width` used by the blink test
(script.js line 147). -/
def aspectRatioOf (r : Rect) : ℚ := (r.height : ℚ) / (r.width : ℚ)

/-- The sort `eyeRects.sort((a, b) => a.x - b.x)` (script.js line 143):
a stable sort of the eye candidates by ascending x coordinate. -/
def sortByX (l : List Rect) : List Rect :=
  l.mergeSort (fun a b => decide (a.x ≤ b.x))

/-- Per-tick classification core of `processVideo` (script.js lines
125-166): direction starts at NO FACE; the first detected face (if any) is
searched for eyes; with at least two eye candidates, the two leftmost by x
become the operative pair, the leftmost eye runs the blink test and, when
open, the gaze estimator on its binarized region.  `detectEyes` abstracts
`eyeCascade.detectMultiScale` on the face region and `eyeRegion` abstracts
the binarized content of an eye rectangle within the current frame. -/
def classify (faces : List Rect) (detectEyes : Rect → List Rect)
    (eyeRegion : Rect → BinImg) : String :=
  match faces with
  | [] => "NO FACE"
  | faceRect :: _ =>
    let eyes := detectEyes faceRect
    if 2 ≤ eyes.length then
      match sortByX eyes with
      | [] => "NO FACE"
      | leftEyeRect :: _ =>
        if aspectRatioOf leftEyeRect < BLINK_RATIO_THRESHOLD then "BLINK"
        else detectGaze (eyeRegion leftEyeRect)
    else "NO FACE"

/-- The GATT device handle: only its `gatt.connected` flag is observable
to the script. -/
structure BleDev where
  gattConnected : Bool
deriving DecidableEq, Repr

/-- The mutable globals of the script that the dispatcher and the link
lifecycle touch, plus the pending `setTimeout` callbacks and the log of
successful `writeValue` calls.  Each pending entry is the captured
`direction` closure variable together with its wall-clock fire time. -/
structure AppState where
  bleDevice : Option BleDev
  bleCharacteristic : Bool
  lastSentDirection : String
  pending : List (String × ℕ)
  sent : List String
deriving DecidableEq, Repr

/-- Initial globals: `bleDevice = null`, `bleCharacteristic = null`,
`lastSentDirection = ''`, no timers, nothing sent. -/
def initState : AppState :=
  { bleDevice := none, bleCharacteristic := false, lastSentDirection := "",
    pending := [], sent := [] }

/-- `sendDirection(direction)` at wall-clock time `now` (script.js lines
272-289; the second variant, lines 660-675, guards with the same
conjunction): bail out if no characteristic is held, if the direction is
NO FACE, or if it equals `lastSentDirection`; otherwise assign
`lastSentDirection = direction` immediately and schedule a timeout for
`now + GAZE_DEBOUNCE_MS`. -/
def sendDirection (s : AppState) (direction : String) (now : ℕ) : AppState :=
  if s.bleCharacteristic = false then s
  else if direction = "NO FACE" then s
  else if direction = s.lastSentDirection then s
  else { s with lastSentDirection := direction,
                pending := s.pending ++ [(direction, now + GAZE_DEBOUNCE_MS)] }

/-- The body of the scheduled timeout: if `lastSentDirection` still equals
the captured direction, attempt `bleCharacteristic.writeValue`; the write
succeeds only while a characteristic is held (a null handle throws inside
the try block, which swallows the error). -/
def fireTimer (s : AppState) (direction : String) : AppState :=
  if s.lastSentDirection = direction ∧ s.bleCharacteristic = true then
    { s with sent := s.sent ++ [direction] }
  else s

/-- Run every pending timeout whose deadline has passed, in schedule order
(deadlines are nondecreasing because delays are constant), leaving the
rest pending. -/
def fireDueAux (now : ℕ) : List (String × ℕ) → AppState → AppState
  | [], s => { s with pending := [] }
  | (d, ft) :: rest, s =>
    if ft ≤ now then fireDueAux now rest (fireTimer s d)
    else { s with pending := (d, ft) :: rest }

/-- Advance the event loop to time `now`, firing all due timeouts. -/
def fireDue (s : AppState) (now : ℕ) : AppState := fireDueAux now s.pending s

/-- Run every remaining pending timeout, in schedule order (every timeout
eventually fires). -/
def flushAux : List (String × ℕ) → AppState → AppState
  | [], s => { s with pending := [] }
  | (d, _) :: rest, s => flushAux rest (fireTimer s d)

/-- Let all outstanding timeouts fire at the end of an execution. -/
def flushAll (s : AppState) : AppState := flushAux s.pending s

/-- `onDisconnected` (script.js lines 264-270): the `gattserverdisconnected`
handler nulls the device and characteristic handles and resets
`lastSentDirection` to the empty string.  Pending timeouts are not
cancelled; their `lastSentDirection === direction` check and the nulled
characteristic make them no-ops. -/
def onDisconnected (s : AppState) : AppState :=
  { s with bleDevice := none, bleCharacteristic := false,
           lastSentDirection := "" }

/-- Whether the held device reports `gatt.connected`. -/
def devConnected (s : AppState) : Bool :=
  match s.bleDevice with
  | none => false
  | some d => d.gattConnected

/-- Where an attempt of `connectBluetooth` (script.js lines 239-258) stops:
`requestDevice` rejected (no device chosen), `gatt.connect` failed,
`getPrimaryService` failed, `getCharacteristic` failed, or full success. -/
inductive ConnectOutcome
  | noDevice
  | gattFail
  | serviceFail
  | charFail
  | success
deriving DecidableEq, Repr

/-- One `connectBluetooth()` attempt.  On `requestDevice` rejection no
assignment happens; after a successful `requestDevice` the fresh device
replaces `bleDevice`; the catch block disconnects the device only when it
reports connected.  `bleCharacteristic` is assigned solely on the success
path, as in the source. -/
def connectBluetooth (s : AppState) (o : ConnectOutcome) : AppState :=
  match o with
  | .noDevice =>
    if devConnected s then { s with bleDevice := some ⟨false⟩ } else s
  | .gattFail =>
    let s1 := { s with bleDevice := some (⟨false⟩ : BleDev) }
    if devConnected s1 then { s1 with bleDevice := some ⟨false⟩ } else s1
  | .serviceFail =>
    let s1 := { s with bleDevice := some (⟨true⟩ : BleDev) }
    if devConnected s1 then { s1 with bleDevice := some ⟨false⟩ } else s1
  | .charFail =>
    let s1 := { s with bleDevice := some (⟨true⟩ : BleDev) }
    if devConnected s1 then { s1 with bleDevice := some ⟨false⟩ } else s1
  | .success =>
    { s with bleDevice := some ⟨true⟩, bleCharacteristic := true }

/-- External events driving the embedded event loop: a classified frame
tick (which calls `sendDirection`), an unsolicited GATT disconnect, or a
user connect attempt with a given outcome. -/
inductive AppEvent
  | frame (direction : String)
  | disconnectEvent
  | connectAttempt (o : ConnectOutcome)
deriving DecidableEq, Repr

/-- Dispatch one event at time `t` (due timeouts having already fired). -/
def step (s : AppState) (t : ℕ) : AppEvent → AppState
  | .frame d => sendDirection s d t
  | .disconnectEvent => onDisconnected s
  | .connectAttempt o => connectBluetooth s o

/-- Run a timestamped event list (times nondecreasing) through the
single-threaded event loop, firing due timeouts before each event and
letting all remaining timeouts fire at the end. -/
def run (s : AppState) : List (ℕ × AppEvent) → AppState
  | [] => flushAll s
  | (t, e) :: rest => run (step (fireDue s t) t e) rest

/-- One iteration of `processVideo` (script.js lines 108-182) from the
dispatcher's viewpoint: the whole classification runs inside a try block,
so an exception degrades the tick to no dispatch; `requestAnimationFrame`
sits after the catch and is reached either way.  The `Except` argument is
the outcome of the classification pipeline for this tick; the returned
Bool records that the next tick was scheduled. -/
def processTick (s : AppState) (now : ℕ) (result : Except String String) :
    AppState × Bool :=
  match result with
  | .ok direction => (sendDirection s direction now, true)
  | .error _ => (s, true)

/-- A freshly connected, idle state: handles held, nothing sent yet. -/
def connectedIdle : AppState :=
  { bleDevice := some ⟨true⟩, bleCharacteristic := true,
    lastSentDirection := "", pending := [], sent := [] }

/-- A connected state that has already committed one send of LEFT and is
quiescent (no pending timeout). -/
def connectedAfterLeft : AppState :=
  { bleDevice := some ⟨true⟩, bleCharacteristic := true,
    lastSentDirection := "LEFT", pending := [], sent := ["LEFT"] }

/-- Setup trace: connect, observe LEFT, let its timeout commit, observe
LEFT again (ignored). -/
def setupTrace : List (ℕ × AppEvent) :=
  [(0, .connectAttempt .success), (10, .frame "LEFT"), (1000, .frame "LEFT")]

/-- The setup trace followed by a LEFT, RIGHT, LEFT oscillation whose three
observations (at 1000, 1050, 1100 ms) span 100 ms, less than twice the
150 ms settle delay, and end on LEFT, the direction last sent. -/
def oscillationTrace : List (ℕ × AppEvent) :=
  setupTrace ++ [(1050, .frame "RIGHT"), (1100, .frame "LEFT")]

/-- Sample eye rectangles: the right-of-screen one listed first, both with
aspect ratio 2/30 < 0.25 (blink). -/
def eyesW : List Rect := [⟨50, 5, 30, 2⟩, ⟨10, 5, 30, 2⟩]

/-- Sample face rectangle. -/
def faceW : Rect := ⟨0, 0, 100, 100⟩

/-- A detector stub returning `eyesW` for any region. -/
def detectEyesW : Rect → List Rect := fun _ => eyesW

/-! ## Supporting lemmas -/

theorem m00_mirror (img : BinImg) : m00 (mirrorImg img) = m00 img := by
  simp [m00, mirrorImg]

theorem cols_mirror (img : BinImg) : (mirrorImg img).cols = img.cols := rfl

theorem m10_mirror_add (img : BinImg) (hx : ∀ p ∈ img.pixels, p.1 < img.cols) :
    m10 (mirrorImg img) + m10 img = (img.cols - 1) * m00 img := by
  rcases img with ⟨c, l⟩
  simp only [m10, m00, mirrorImg] at *
  induction l with
  | nil => simp
  | cons p t ih =>
    have hp : p.1 < c := hx p (by simp)
    have ht : ∀ q ∈ t, q.1 < c := fun q hq => hx q (by simp [hq])
    have hih := ih ht
    simp only [List.map_cons, List.sum_cons, List.length_cons]
    rw [Nat.mul_succ]
    generalize hA : (c - 1) * t.length = A at hih ⊢
    omega

theorem fireDue_of_pending_nil (s : AppState) (t : ℕ) (h : s.pending = []) :
    fireDue s t = s := by
  rcases s with ⟨dev, ch, last, pend, snt⟩
  simp only at h
  subst h
  rfl

theorem detectGaze_eq_left (img : BinImg) (hm : 100 < m00 img)
    (h : detectGaze img = "LEFT") : gazeRatioOf img < GAZE_THRESHOLD_LOW := by
  by_contra hc
  unfold detectGaze at h
  rw [if_pos hm, if_neg hc] at h
  split_ifs at h
  · exact absurd h (by decide)
  · exact absurd h (by decide)

theorem detectGaze_eq_right (img : BinImg) (hm : 100 < m00 img)
    (h : detectGaze img = "RIGHT") : GAZE_THRESHOLD_HIGH < gazeRatioOf img := by
  unfold detectGaze at h
  rw [if_pos hm] at h
  split_ifs at h with h1 h2
  · exact absurd h (by decide)
  · exact h2
  · exact absurd h (by decide)

theorem sendDirection_accepts (s : AppState) (d : String) (now : ℕ)
    (hc : s.bleCharacteristic = true) (hnf : d ≠ "NO FACE")
    (hne : d ≠ s.lastSentDirection) :
    (sendDirection s d now).lastSentDirection = d ∧
    (sendDirection s d now).sent = s.sent ∧
    (sendDirection s d now).pending
      = s.pending ++ [(d, now + GAZE_DEBOUNCE_MS)] := by
  unfold sendDirection
  rw [if_neg (by simp [hc]), if_neg hnf, if_neg hne]
  exact ⟨rfl, rfl, rfl⟩

theorem gazeRatio_mirror_sum (img : BinImg)
    (hx : ∀ p ∈ img.pixels, p.1 < img.cols)
    (hc1 : 1 ≤ img.cols) (hm0 : 0 < m00 img) :
    gazeRatioOf img + gazeRatioOf (mirrorImg img)
      = ((img.cols : ℚ) - 1) / (img.cols : ℚ) := by
  have hmq : (0 : ℚ) < (m00 img : ℚ) := by exact_mod_cast hm0
  have hcast : (m10 (mirrorImg img) : ℚ) + (m10 img : ℚ)
      = ((img.cols : ℚ) - 1) * (m00 img : ℚ) := by
    have hadd := m10_mirror_add img hx
    have hq := congrArg (fun n : ℕ => (n : ℚ)) hadd
    push_cast [Nat.cast_sub hc1] at hq
    linarith [hq]
  have hcast2 : (m10 img : ℚ) + (m10 (mirrorImg img) : ℚ)
      = ((img.cols : ℚ) - 1) * (m00 img : ℚ) := by linarith [hcast]
  unfold gazeRatioOf
  rw [m00_mirror, cols_mirror, div_add_div_same, div_add_div_same, hcast2,
      mul_div_cancel_right₀ _ (ne_of_gt hmq)]

theorem sortByX_perm (l : List Rect) : (sortByX l).Perm l :=
  List.mergeSort_perm l _

theorem sortByX_sorted (l : List Rect) :
    List.Pairwise (fun a b : Rect => a.x ≤ b.x) (sortByX l) := by
  have h := @List.sorted_mergeSort Rect
    (fun a b : Rect => decide (a.x ≤ b.x))
    (fun a b c hab hbc => by
      simp only [decide_eq_true_eq] at *
      omega)
    (fun a b => by
      simp only [Bool.or_eq_true, decide_eq_true_eq]
      omega) l
  exact h.imp (fun hab => by simpa using hab)

/-! ## Claim theorems -/

/-- C8: the dispatcher never transmits NO FACE — a tick classified NO FACE
leaves the whole dispatcher state (lastSentDirection, pending timeouts,
send log) untouched. -/
theorem C8_no_face_is_ignored (s : AppState) (now : ℕ) :
    sendDirection s "NO FACE" now = s := by
  unfold sendDirection
  split
  · rfl
  · simp

/-- C9: an exception in a tick's classification is caught within the tick,
no dispatch happens for that tick (state unchanged), and the next tick is
scheduled regardless of the outcome. -/
theorem C9_tick_exception_contained (s : AppState) (now : ℕ) :
    (∀ msg : String, processTick s now (Except.error msg) = (s, true)) ∧
    (∀ d : String, (processTick s now (Except.ok d)).2 = true) :=
  ⟨fun _ => rfl, fun _ => rfl⟩

/-- C6: with zero face rectangles classification is NO FACE whatever the
eye detector would say (it is never consulted), and with a face but fewer
than two eye rectangles gaze and blink logic are skipped and the direction
stays at the pre-face default NO FACE, whatever the pixel content. -/
theorem C6_no_face_and_insufficient_eyes :
    (∀ (detectEyes : Rect → List Rect) (eyeRegion : Rect → BinImg),
      classify [] detectEyes eyeRegion = "NO FACE") ∧
    (∀ (face : Rect) (rest : List Rect) (detectEyes : Rect → List Rect)
      (eyeRegion : Rect → BinImg), (detectEyes face).length < 2 →
      classify (face :: rest) detectEyes eyeRegion = "NO FACE") := by
  constructor
  · intro _ _
    rfl
  · intro face rest detectEyes eyeRegion h
    show (if 2 ≤ (detectEyes face).length then
        match sortByX (detectEyes face) with
        | [] => "NO FACE"
        | leftEyeRect :: _ =>
          if aspectRatioOf leftEyeRect < BLINK_RATIO_THRESHOLD then "BLINK"
          else detectGaze (eyeRegion leftEyeRect)
      else "NO FACE") = "NO FACE"
    rw [if_neg (by omega)]

/-- Witness for C6 at concrete inputs: an empty face list, and a face with
a single eye candidate. -/
theorem C6_witness :
    classify [] detectEyesW (fun _ => imgA) = "NO FACE" ∧
    classify [faceW] (fun _ => [⟨5, 5, 10, 10⟩]) (fun _ => imgA) = "NO FACE" :=
  ⟨C6_no_face_and_insufficient_eyes.1 detectEyesW (fun _ => imgA),
   C6_no_face_and_insufficient_eyes.2 faceW [] (fun _ => [⟨5, 5, 10, 10⟩])
     (fun _ => imgA) (by decide)⟩

/-- C2 counterexample: in a connected state with empty lastSentDirection,
observing LEFT updates lastSentDirection to LEFT immediately, while the
send log is still empty and the scheduled commit is still pending — so
lastSentDirection is updated at candidate-observation time, not at the
delayed commit point as the claim states. -/
theorem C2_counterexample :
    (sendDirection connectedIdle "LEFT" 0).lastSentDirection = "LEFT" ∧
    (sendDirection connectedIdle "LEFT" 0).sent = [] ∧
    (sendDirection connectedIdle "LEFT" 0).pending
      = [("LEFT", GAZE_DEBOUNCE_MS)] := by decide

/-- C2 amended: `lastSentDirection` is updated to the candidate direction
eagerly, at candidate-observation time, immediately before the settle
timeout is scheduled; the delayed commit only checks that
`lastSentDirection` still equals the captured candidate and performs the
write, never modifying `lastSentDirection` itself. -/
theorem C2_amended_eager_update :
    (∀ (s : AppState) (d : String) (now : ℕ),
      s.bleCharacteristic = true → d ≠ "NO FACE" → d ≠ s.lastSentDirection →
      (sendDirection s d now).lastSentDirection = d ∧
      (sendDirection s d now).sent = s.sent ∧
      (sendDirection s d now).pending
        = s.pending ++ [(d, now + GAZE_DEBOUNCE_MS)]) ∧
    (∀ (s : AppState) (d : String),
      (fireTimer s d).lastSentDirection = s.lastSentDirection) := by
  constructor
  · intro s d now hc hnf hne
    exact sendDirection_accepts s d now hc hnf hne
  · intro s d
    unfold fireTimer
    split
    · rfl
    · rfl

/-- Witness for C2 amended at a concrete connected state and direction. -/
theorem C2_witness :
    (sendDirection connectedIdle "RIGHT" 5).lastSentDirection = "RIGHT" ∧
    (sendDirection connectedIdle "RIGHT" 5).sent = connectedIdle.sent ∧
    (sendDirection connectedIdle "RIGHT" 5).pending
      = connectedIdle.pending ++ [("RIGHT", 5 + GAZE_DEBOUNCE_MS)] :=
  C2_amended_eager_update.1 connectedIdle "RIGHT" 5 (by decide) (by decide)
    (by decide)

/-- C3 counterexample: in the second shipped variant the mass guard is
`m00 > 0`, so a sample whose zeroth moment is 50 — below the canonical
threshold of 100 — is not rejected: its centroid ratio 1/10 is computed
and classified as the lateral label LEFT rather than Center. -/
theorem C3_counterexample :
    m00 imgSmall < 100 ∧ detectGazeV2 imgSmall = "LEFT" := by
  have h0 : m00 imgSmall = 50 := by decide
  have h1 : m10 imgSmall = 50 := by decide
  have hc : imgSmall.cols = 10 := rfl
  have hr : gazeRatioOf imgSmall = 1 / 10 := by
    rw [gazeRatioOf, h0, h1, hc]
    norm_num
  constructor
  · rw [h0]
    norm_num
  · unfold detectGazeV2
    rw [if_pos (by rw [h0]; norm_num),
        if_pos (by rw [hr]; unfold GAZE_THRESHOLD_LOW2; norm_num)]

/-- C3 amended: each variant rejects a sample (returns Center, with no
lateral classification) when its zeroth moment is at or below that
variant's own mass threshold — 100 in the first variant (the canonical
value), but only 0 in the second variant, which therefore does classify
samples with 0 < m00 < 100. -/
theorem C3_amended_mass_guard :
    (∀ img : BinImg, m00 img ≤ 100 → detectGaze img = "CENTER") ∧
    (∀ img : BinImg, m00 img = 0 → detectGazeV2 img = "CENTER") := by
  constructor
  · intro img h
    unfold detectGaze
    rw [if_neg (by omega)]
  · intro img h
    unfold detectGazeV2
    rw [if_neg (by omega)]

/-- Witness for C3 amended: the 50-pixel sample is rejected by variant 1,
and the empty sample is rejected by variant 2. -/
theorem C3_witness :
    detectGaze imgSmall = "CENTER" ∧ detectGazeV2 imgEmpty = "CENTER" :=
  ⟨C3_amended_mass_guard.1 imgSmall (by decide),
   C3_amended_mass_guard.2 imgEmpty (by decide)⟩

/-- C4: every failing connect attempt started without a characteristic
handle ends with no characteristic handle and a disconnected device, and
the unsolicited-disconnect handler always nulls both handles and resets
`lastSentDirection` to its empty initial value. -/
theorem C4_disconnect_invalidates_handle :
    (∀ (s : AppState) (o : ConnectOutcome), o ≠ ConnectOutcome.success →
      s.bleCharacteristic = false →
      (connectBluetooth s o).bleCharacteristic = false ∧
      devConnected (connectBluetooth s o) = false) ∧
    (∀ s : AppState,
      (onDisconnected s).bleCharacteristic = false ∧
      (onDisconnected s).bleDevice = none ∧
      (onDisconnected s).lastSentDirection = "") := by
  constructor
  · intro s o ho hc
    cases o with
    | success => exact absurd rfl ho
    | noDevice =>
      simp only [connectBluetooth]
      split
      · exact ⟨hc, rfl⟩
      · next hdc =>
        refine ⟨hc, ?_⟩
        simp only [Bool.not_eq_true] at hdc
        exact hdc
    | gattFail => exact ⟨hc, rfl⟩
    | serviceFail => exact ⟨hc, rfl⟩
    | charFail => exact ⟨hc, rfl⟩
  · intro s
    exact ⟨rfl, rfl, rfl⟩

/-- Witness for C4: a connect attempt from the initial state that fails at
the characteristic-resolution step, and a disconnect from the idle
connected state. -/
theorem C4_witness :
    ((connectBluetooth initState ConnectOutcome.charFail).bleCharacteristic
        = false ∧
      devConnected (connectBluetooth initState ConnectOutcome.charFail)
        = false) ∧
    ((onDisconnected connectedAfterLeft).bleCharacteristic = false ∧
      (onDisconnected connectedAfterLeft).bleDevice = none ∧
      (onDisconnected connectedAfterLeft).lastSentDirection = "") :=
  ⟨C4_disconnect_invalidates_handle.1 initState ConnectOutcome.charFail
      (by decide) (by decide),
   C4_disconnect_invalidates_handle.2 connectedAfterLeft⟩

/-- C10: the dispatcher is a strict no-op whenever no characteristic
handle is held, and after a disconnect followed by a successful reconnect
every classified non-NO-FACE direction differs from the reset
`lastSentDirection`, so the first such direction is accepted: it becomes
`lastSentDirection` and its delayed send is scheduled. -/
theorem C10_first_direction_after_reconnect :
    (∀ (s : AppState) (d : String) (now : ℕ), s.bleCharacteristic = false →
      sendDirection s d now = s) ∧
    (∀ (s : AppState) (d : String) (now : ℕ),
      d ∈ (["LEFT", "RIGHT", "CENTER", "BLINK"] : List String) →
      d ≠ (connectBluetooth (onDisconnected s)
            ConnectOutcome.success).lastSentDirection ∧
      (sendDirection (connectBluetooth (onDisconnected s)
          ConnectOutcome.success) d now).lastSentDirection = d ∧
      (sendDirection (connectBluetooth (onDisconnected s)
          ConnectOutcome.success) d now).pending
        = s.pending ++ [(d, now + GAZE_DEBOUNCE_MS)]) := by
  constructor
  · intro s d now hc
    unfold sendDirection
    rw [if_pos hc]
  · intro s d now hd
    have hlast : (connectBluetooth (onDisconnected s)
        ConnectOutcome.success).lastSentDirection = "" := rfl
    have hchar : (connectBluetooth (onDisconnected s)
        ConnectOutcome.success).bleCharacteristic = true := rfl
    have hpend : (connectBluetooth (onDisconnected s)
        ConnectOutcome.success).pending = s.pending := rfl
    have hcases : d = "LEFT" ∨ d = "RIGHT" ∨ d = "CENTER" ∨ d = "BLINK" := by
      simpa using hd
    have hne : d ≠ "" := by
      rcases hcases with h | h | h | h <;> subst h <;> decide
    have hnf : d ≠ "NO FACE" := by
      rcases hcases with h | h | h | h <;> subst h <;> decide
    refine ⟨by rw [hlast]; exact hne, ?_, ?_⟩
    · exact (sendDirection_accepts _ d now hchar hnf
        (by rw [hlast]; exact hne)).1
    · rw [(sendDirection_accepts _ d now hchar hnf
        (by rw [hlast]; exact hne)).2.2, hpend]

/-- Witness for C10: a NO-FACE-free direction observed right after a
reconnect that followed a session which had sent LEFT. -/
theorem C10_witness :
    "LEFT" ≠ (connectBluetooth (onDisconnected connectedAfterLeft)
        ConnectOutcome.success).lastSentDirection ∧
    (sendDirection (connectBluetooth (onDisconnected connectedAfterLeft)
        ConnectOutcome.success) "LEFT" 0).lastSentDirection = "LEFT" ∧
    (sendDirection (connectBluetooth (onDisconnected connectedAfterLeft)
        ConnectOutcome.success) "LEFT" 0).pending
      = connectedAfterLeft.pending ++ [("LEFT", 0 + GAZE_DEBOUNCE_MS)] :=
  C10_first_direction_after_reconnect.2 connectedAfterLeft "LEFT" 0
    (by decide)

/-- C1 counterexample: after the setup trace the dispatcher is quiescent
with exactly one committed send and lastSentDirection = LEFT; the
oscillation LEFT, RIGHT, LEFT observed at 1000, 1050, 1100 ms — a 100 ms
span, under twice the 150 ms settle delay, ending on LEFT which equals
lastSentDirection — then commits one further send (a duplicate LEFT), not
zero. -/
theorem C1_counterexample :
    (run initState setupTrace).lastSentDirection = "LEFT" ∧
    (run initState setupTrace).pending = [] ∧
    (run initState setupTrace).sent = ["LEFT"] ∧
    (run initState oscillationTrace).sent = ["LEFT", "LEFT"] := by decide

/-- C1 amended: from a quiescent connected state whose lastSentDirection
is A, the stream A, B, A with the B-to-A gap shorter than the settle delay
commits exactly one send — a duplicate retransmission of A — because the
eager lastSentDirection update makes the final A pass the change guard and
survive its own settle check, while B's scheduled send is suppressed. -/
theorem C1_amended_oscillation_resends (s : AppState) (a b : String)
    (t0 t1 t2 : ℕ) (hchar : s.bleCharacteristic = true)
    (hlast : s.lastSentDirection = a) (hpend : s.pending = [])
    (hab : a ≠ b) (ha : a ≠ "NO FACE") (hb : b ≠ "NO FACE")
    (h2 : t2 < t1 + GAZE_DEBOUNCE_MS) :
    (flushAll (sendDirection (fireDue (sendDirection (fireDue (sendDirection
        (fireDue s t0) a t0) t1) b t1) t2) a t2)).sent = s.sent ++ [a] := by
  have hstep0 : sendDirection (fireDue s t0) a t0 = s := by
    rw [fireDue_of_pending_nil s t0 hpend]
    unfold sendDirection
    rw [if_neg (by simp [hchar]), if_neg ha, if_pos hlast.symm]
  rw [hstep0, fireDue_of_pending_nil s t1 hpend]
  have hstep1 : sendDirection s b t1
      = { s with
          lastSentDirection := b,
          pending := [(b, t1 + GAZE_DEBOUNCE_MS)] } := by
    unfold sendDirection
    rw [if_neg (by simp [hchar]), if_neg hb,
        if_neg (by rw [hlast]; exact fun h => hab h.symm), hpend]
    rfl
  rw [hstep1]
  have hstep2 : fireDue ({ s with
      lastSentDirection := b,
      pending := [(b, t1 + GAZE_DEBOUNCE_MS)] }) t2
      = { s with
          lastSentDirection := b,
          pending := [(b, t1 + GAZE_DEBOUNCE_MS)] } := by
    unfold fireDue fireDueAux
    rw [if_neg (by omega)]
  rw [hstep2]
  have hstep3 : sendDirection ({ s with
      lastSentDirection := b,
      pending := [(b, t1 + GAZE_DEBOUNCE_MS)] }) a t2
      = { s with
          lastSentDirection := a,
          pending := [(b, t1 + GAZE_DEBOUNCE_MS),
                      (a, t2 + GAZE_DEBOUNCE_MS)] } := by
    unfold sendDirection
    rw [if_neg (by simp [hchar]), if_neg ha, if_neg hab]
    rfl
  rw [hstep3]
  unfold flushAll flushAux
  rw [show fireTimer ({ s with
      lastSentDirection := a,
      pending := [(b, t1 + GAZE_DEBOUNCE_MS), (a, t2 + GAZE_DEBOUNCE_MS)] }) b
      = { s with
          lastSentDirection := a,
          pending := [(b, t1 + GAZE_DEBOUNCE_MS),
                      (a, t2 + GAZE_DEBOUNCE_MS)] } from by
    unfold fireTimer
    rw [if_neg (by simp [hab])]]
  unfold flushAux
  rw [show fireTimer ({ s with
      lastSentDirection := a,
      pending := [(b, t1 + GAZE_DEBOUNCE_MS), (a, t2 + GAZE_DEBOUNCE_MS)] }) a
      = { s with
          lastSentDirection := a,
          pending := [(b, t1 + GAZE_DEBOUNCE_MS), (a, t2 + GAZE_DEBOUNCE_MS)],
          sent := s.sent ++ [a] } from by
    unfold fireTimer
    rw [if_pos ⟨rfl, hchar⟩]]
  rfl

/-- Witness for C1 amended at the concrete post-send state and the
concrete 1000 / 1050 / 1100 ms oscillation. -/
theorem C1_witness :
    (flushAll (sendDirection (fireDue (sendDirection (fireDue (sendDirection
        (fireDue connectedAfterLeft 1000) "LEFT" 1000) 1050) "RIGHT" 1050)
        1100) "LEFT" 1100)).sent = connectedAfterLeft.sent ++ ["LEFT"] :=
  C1_amended_oscillation_resends connectedAfterLeft "LEFT" "RIGHT"
    1000 1050 1100 (by decide) (by decide) (by decide) (by decide)
    (by decide) (by decide) (by decide)

/-- C5 counterexample: the 101-pixel column-3 image over 10 columns and
its horizontal mirror both pass the mass check, yet they classify as LEFT
and CENTER — not as opposite lateral labels, and the Center side of the
pair mirrors to LEFT rather than Center (the centroid ratios are 3/10 and
6/10, and 6/10 does not exceed the 0.60 band edge). -/
theorem C5_counterexample :
    100 < m00 imgA ∧ 100 < m00 (mirrorImg imgA) ∧
    mirrorImg (mirrorImg imgA) = imgA ∧
    detectGaze imgA = "LEFT" ∧ detectGaze (mirrorImg imgA) = "CENTER" := by
  have h0 : m00 imgA = 101 := by decide
  have h1 : m10 imgA = 303 := by decide
  have h0m : m00 (mirrorImg imgA) = 101 := by decide
  have h1m : m10 (mirrorImg imgA) = 606 := by decide
  have hr : gazeRatioOf imgA = 3 / 10 := by
    rw [gazeRatioOf, h0, h1, show imgA.cols = 10 from rfl]
    norm_num
  have hrm : gazeRatioOf (mirrorImg imgA) = 3 / 5 := by
    rw [gazeRatioOf, h0m, h1m, show (mirrorImg imgA).cols = 10 from rfl]
    norm_num
  refine ⟨by rw [h0]; norm_num, by rw [h0m]; norm_num, by decide, ?_, ?_⟩
  · unfold detectGaze
    rw [if_pos (by rw [h0]; norm_num),
        if_pos (by rw [hr]; unfold GAZE_THRESHOLD_LOW; norm_num)]
  · unfold detectGaze
    rw [if_pos (by rw [h0m]; norm_num),
        if_neg (by rw [hrm]; unfold GAZE_THRESHOLD_LOW; norm_num),
        if_neg (by rw [hrm]; unfold GAZE_THRESHOLD_HIGH; norm_num)]

/-- C5 amended: for mirror pairs that pass the mass check the emitted
labels are never both RIGHT (at any region width), and provided the eye
region is at least 5 pixels wide they are never both LEFT either — the
same lateral label on both sides is impossible; but because the mirrored
ratio is (cols-1)/cols minus the original rather than its exact
complement, a centroid within 1/cols of a band edge may pair a lateral
label with Center, so strict opposite-lateral pairing and
Center-to-Center preservation do not hold. -/
theorem C5_amended_no_same_lateral (img : BinImg)
    (hx : ∀ p ∈ img.pixels, p.1 < img.cols) (hm : 100 < m00 img) :
    (5 ≤ img.cols →
      ¬(detectGaze img = "LEFT" ∧ detectGaze (mirrorImg img) = "LEFT")) ∧
    ¬(detectGaze img = "RIGHT" ∧ detectGaze (mirrorImg img) = "RIGHT") := by
  have hm' : 100 < m00 (mirrorImg img) := by rw [m00_mirror]; exact hm
  constructor
  · intro h5
    rintro ⟨hL, hLm⟩
    have hc1 : 1 ≤ img.cols := by omega
    have hcq : (5 : ℚ) ≤ (img.cols : ℚ) := by exact_mod_cast h5
    have hc0 : (0 : ℚ) < (img.cols : ℚ) := by linarith
    have hsum := gazeRatio_mirror_sum img hx hc1 (by omega)
    have r1 := detectGaze_eq_left img hm hL
    have r2 := detectGaze_eq_left (mirrorImg img) hm' hLm
    unfold GAZE_THRESHOLD_LOW at r1 r2
    have hge : (4 : ℚ) / 5 ≤ ((img.cols : ℚ) - 1) / (img.cols : ℚ) := by
      rw [div_le_div_iff₀ (by norm_num) hc0]
      linarith
    rw [← hsum] at hge
    norm_num at r1 r2
    linarith
  · rintro ⟨hR, hRm⟩
    have r1 := detectGaze_eq_right img hm hR
    have r2 := detectGaze_eq_right (mirrorImg img) hm' hRm
    unfold GAZE_THRESHOLD_HIGH at r1 r2
    rcases Nat.eq_zero_or_pos img.cols with hz | hpos
    · have h0 : gazeRatioOf img = 0 := by
        unfold gazeRatioOf
        rw [hz]
        norm_num
      rw [h0] at r1
      norm_num at r1
    · have hc0 : (0 : ℚ) < (img.cols : ℚ) := by exact_mod_cast hpos
      have hsum := gazeRatio_mirror_sum img hx hpos (by omega)
      have hlt : ((img.cols : ℚ) - 1) / (img.cols : ℚ) < 1 := by
        rw [div_lt_one hc0]
        linarith
      rw [← hsum] at hlt
      norm_num at r1 r2
      linarith

/-- Witness for C5 amended at the concrete 101-pixel image. -/
theorem C5_witness :
    ¬(detectGaze imgA = "LEFT" ∧ detectGaze (mirrorImg imgA) = "LEFT") ∧
    ¬(detectGaze imgA = "RIGHT" ∧ detectGaze (mirrorImg imgA) = "RIGHT") :=
  ⟨(C5_amended_no_same_lateral imgA (by decide) (by decide)).1 (by decide),
   (C5_amended_no_same_lateral imgA (by decide) (by decide)).2⟩

/-- C7: with at least two eye candidates, the operative list is a
permutation of the candidates sorted by ascending x, so its first two
entries are the two leftmost-by-x rectangles; and whenever the leftmost
(index 0) eye's aspect ratio height/width is below
BLINK_RATIO_THRESHOLD, the tick classifies as BLINK for every possible
pixel content, the gaze estimator never being consulted. -/
theorem C7_sorted_pair_and_blink (face : Rect) (rest : List Rect)
    (detectEyes : Rect → List Rect)
    (h2 : 2 ≤ (detectEyes face).length) :
    (sortByX (detectEyes face)).Perm (detectEyes face) ∧
    List.Pairwise (fun a b : Rect => a.x ≤ b.x) (sortByX (detectEyes face)) ∧
    ∃ l r tl, sortByX (detectEyes face) = l :: r :: tl ∧
      l.x ≤ r.x ∧ (∀ e ∈ detectEyes face, l.x ≤ e.x) ∧
      (aspectRatioOf l < BLINK_RATIO_THRESHOLD →
        ∀ eyeRegion : Rect → BinImg,
          classify (face :: rest) detectEyes eyeRegion = "BLINK") := by
  refine ⟨sortByX_perm _, sortByX_sorted _, ?_⟩
  have hlen : 2 ≤ (sortByX (detectEyes face)).length := by
    rw [(sortByX_perm (detectEyes face)).length_eq]
    exact h2
  rcases hs : sortByX (detectEyes face) with _ | ⟨l, _ | ⟨r, tl⟩⟩
  · rw [hs] at hlen
    simp at hlen
  · rw [hs] at hlen
    simp at hlen
  · have hsorted := sortByX_sorted (detectEyes face)
    rw [hs] at hsorted
    refine ⟨l, r, tl, rfl, ?_, ?_, ?_⟩
    · exact (List.pairwise_cons.mp hsorted).1 r (by simp)
    · intro e he
      have he' : e ∈ sortByX (detectEyes face) :=
        ((sortByX_perm (detectEyes face)).mem_iff).mpr he
      rw [hs] at he'
      rcases List.mem_cons.mp he' with heq | htail
      · rw [heq]
      · exact (List.pairwise_cons.mp hsorted).1 e htail
    · intro hblink eyeRegion
      show (if 2 ≤ (detectEyes face).length then
          match sortByX (detectEyes face) with
          | [] => "NO FACE"
          | leftEyeRect :: _ =>
            if aspectRatioOf leftEyeRect < BLINK_RATIO_THRESHOLD then "BLINK"
            else detectGaze (eyeRegion leftEyeRect)
        else "NO FACE") = "BLINK"
      rw [if_pos h2, hs]
      show (if aspectRatioOf l < BLINK_RATIO_THRESHOLD then "BLINK"
        else detectGaze (eyeRegion l)) = "BLINK"
      rw [if_pos hblink]

/-- Witness for C7: two blink-thin eye rectangles listed right-of-screen
first. -/
theorem C7_witness :
    (sortByX (detectEyesW faceW)).Perm (detectEyesW faceW) ∧
    List.Pairwise (fun a b : Rect => a.x ≤ b.x) (sortByX (detectEyesW faceW)) ∧
    ∃ l r tl, sortByX (detectEyesW faceW) = l :: r :: tl ∧
      l.x ≤ r.x ∧ (∀ e ∈ detectEyesW faceW, l.x ≤ e.x) ∧
      (aspectRatioOf l < BLINK_RATIO_THRESHOLD →
        ∀ eyeRegion : Rect → BinImg,
          classify (faceW :: []) detectEyesW eyeRegion = "BLINK") :=
  C7_sorted_pair_and_blink faceW [] detectEyesW (by decide)

end EyeContact
